import Mathlib

/-!
Shallow embedding of the Finwise Identity & Session Management subsystem
(`src/server/src/controllers/authController.ts`, `src/server/src/config/passport.ts`,
`src/server/src/models/userModel.ts`).

The persistent store is modelled as a list of accounts; `findOne` is the first
account matching the query predicate, and mongoose's `save` replaces the stored
document with the same `_id`. The bcrypt hash is modelled as an ideal injective
one-way function, and a JWT as a record carrying its payload, signing secret and
expiry, with verification succeeding exactly on a matching secret before expiry.
The random 6-digit code drawn by `crypto.randomInt(100000, 999999)` is passed in
as an explicit parameter.
-/

namespace Finwise

/-- `authProvider` enum of `userModel.ts`: `"email" | "google"`. -/
inductive AuthProvider where
  | email
  | google
deriving DecidableEq, Repr

/-- The `User` document of `userModel.ts`. Optional fields are `Option`;
`emailVerificationTokenExpires` is a millisecond epoch timestamp. -/
structure Account where
  id : Nat
  email : String
  name : String
  password : Option String := none
  googleId : Option String := none
  photoURL : Option String := none
  phoneNumber : Option String := none
  authProvider : AuthProvider
  isEmailVerified : Bool := false
  emailVerificationToken : Option String := none
  emailVerificationTokenExpires : Option Nat := none
deriving DecidableEq, Repr

/-- The persistent collection of user documents. -/
abbrev Store := List Account

/-- bcrypt modelled as an ideal salted hash: injective, one-way by fiat. -/
def bcryptHash (pw : String) : String := "$2a$10$" ++ pw

/-- `bcrypt.compare(pw, hash)`. -/
def bcryptCompare (pw hash : String) : Bool := hash == bcryptHash pw

/-- A signed JWT: payload `{ id }`, the secret it was signed with, and its
`exp` instant (ms). -/
structure Token where
  payloadId : Nat
  secret : String
  exp : Nat
deriving DecidableEq, Repr

/-- One day in milliseconds (`expiresIn: "1d"`, `maxAge: 24*60*60*1000`). -/
def oneDayMs : Nat := 24 * 60 * 60 * 1000

/-- `jwt.sign({ id: userId }, secret, { expiresIn: "1d" })` at instant `now`. -/
def jwtSign (userId : Nat) (secret : String) (now : Nat) : Token :=
  { payloadId := userId, secret := secret, exp := now + oneDayMs }

/-- JWT verification: succeeds iff the secret matches and the token is not yet
expired, returning the payload id. -/
def jwtVerify (t : Token) (secret : String) (now : Nat) : Option Nat :=
  if t.secret = secret ∧ now < t.exp then some t.payloadId else none

/-- Ten minutes in milliseconds (`10 * 60 * 1000`). -/
def tenMinutesMs : Nat := 10 * 60 * 1000

/-- The fields returned by every successful auth response:
`{ id, name, email, photoURL }`. -/
structure PublicUser where
  id : Nat
  name : String
  email : String
  photoURL : Option String
deriving DecidableEq, Repr

/-- Projection of an account onto its public response fields. -/
def Account.publicUser (a : Account) : PublicUser :=
  { id := a.id, name := a.name, email := a.email, photoURL := a.photoURL }

/-- `user.save()`: replace the stored document carrying the same `_id`. -/
def Store.saveReplace (s : Store) (a : Account) : Store :=
  s.map (fun b => if b.id = a.id then a else b)

/-- The `findOne` query of `verifyEmail`:
`{ email, emailVerificationToken: otp, emailVerificationTokenExpires: { $gt: Date.now() } }`.
Note it does NOT constrain `isEmailVerified`. -/
def matchesVerifyQuery (now : Nat) (email otp : String) (a : Account) : Bool :=
  a.email == email &&
  a.emailVerificationToken == some otp &&
  (match a.emailVerificationTokenExpires with
   | some e => decide (now < e)
   | none => false)

/-- The successful-verification update: set `isEmailVerified`, clear the code
and its expiry. -/
def clearVerification (a : Account) : Account :=
  { a with isEmailVerified := true,
           emailVerificationToken := none,
           emailVerificationTokenExpires := none }

/-- Outcome of `POST /verify-email`. -/
inductive VerifyResult where
  | ok (body : PublicUser) (cookie : Token)
  | invalidOrExpired
deriving DecidableEq, Repr

/-- HTTP status of a verify outcome: 200 on success, 400 otherwise. -/
def VerifyResult.status : VerifyResult → Nat
  | .ok _ _ => 200
  | .invalidOrExpired => 400

/-- `verifyEmail` of `authController.ts`: look up by email + exact code +
strictly-unexpired expiry; on a match, mark verified, clear the code, sign a
token and return the public fields; otherwise a uniform 400 with the store
untouched. -/
def verifyEmail (secret : String) (now : Nat) (s : Store) (email otp : String) :
    VerifyResult × Store :=
  match s.find? (matchesVerifyQuery now email otp) with
  | none => (.invalidOrExpired, s)
  | some u =>
      let u' := clearVerification u
      (.ok u'.publicUser (jwtSign u'.id secret now), s.saveReplace u')

/-- Outcome of `POST /login`. -/
inductive LoginResult where
  | invalidCredentials
  | emailNotVerified
  | ok (body : PublicUser) (cookie : Token)
deriving DecidableEq, Repr

/-- HTTP status of a login outcome: 401 on both failures, 200 on success. -/
def LoginResult.status : LoginResult → Nat
  | .invalidCredentials => 401
  | .emailNotVerified => 401
  | .ok _ _ => 200

/-- Whether a login outcome issued a token (set the session cookie). -/
def LoginResult.issuesToken : LoginResult → Bool
  | .ok _ _ => true
  | _ => false

/-- The `findOne` query of `login`: `{ email, authProvider: 'email' }`. -/
def matchesLoginQuery (email : String) (a : Account) : Bool :=
  a.email == email && decide (a.authProvider = AuthProvider.email)

/-- `login` of `authController.ts`. Order of checks as in the source: missing
account or missing hash → invalid credentials; then the unverified check; then
`bcrypt.compare`; then token issuance. -/
def login (secret : String) (now : Nat) (s : Store) (email password : String) :
    LoginResult :=
  match s.find? (matchesLoginQuery email) with
  | none => .invalidCredentials
  | some u =>
    match u.password with
    | none => .invalidCredentials
    | some hash =>
      if !u.isEmailVerified then .emailNotVerified
      else if !bcryptCompare password hash then .invalidCredentials
      else .ok u.publicUser (jwtSign u.id secret now)

/-- Outcome of `POST /resend-verification`. -/
inductive ResendResult where
  | notFound
  | resent (code : String)
deriving DecidableEq, Repr

/-- HTTP status of a resend outcome: 400 when not found, 200 on success. -/
def ResendResult.status : ResendResult → Nat
  | .notFound => 400
  | .resent _ => 200

/-- The `findOne` query of `resendVerification`:
`{ email, authProvider: "email", isEmailVerified: false }`. -/
def matchesResendQuery (email : String) (a : Account) : Bool :=
  a.email == email && decide (a.authProvider = AuthProvider.email) &&
    !a.isEmailVerified

/-- `resendVerification` of `authController.ts`, with the freshly drawn
`crypto.randomInt(100000, 999999)` value passed in as `fresh`: overwrite the
stored code with `toString fresh` and the expiry with `now + 10min`. -/
def resendVerification (now fresh : Nat) (s : Store) (email : String) :
    ResendResult × Store :=
  match s.find? (matchesResendQuery email) with
  | none => (.notFound, s)
  | some u =>
      let u' := { u with emailVerificationToken := some (toString fresh),
                         emailVerificationTokenExpires := some (now + tenMinutesMs) }
      (.resent (toString fresh), s.saveReplace u')

/-- An outbound mail handed to `sendEmail` (recipient and text body). -/
structure Email where
  recipient : String
  text : String
deriving DecidableEq, Repr

/-- The verification mail of `register`/`resendVerification`:
"Your verification code is: ${token}". -/
def verificationEmail (recipient code : String) : Email :=
  { recipient := recipient, text := "Your verification code is: " ++ code }

/-- Body of `POST /register`. -/
structure RegisterReq where
  name : String
  email : String
  password : String
  phoneNumber : Option String := none
deriving DecidableEq, Repr

/-- The duplicate-check / unique-index predicate on email. -/
def matchesEmailQuery (email : String) (a : Account) : Bool :=
  a.email == email

/-- The document written by
`UserModel.create({name, email, password, phoneNumber, authProvider: "email"})`:
the pre-save hook hashes the password; `isEmailVerified` defaults to `false`;
no verification code is present yet. -/
def freshLocalAccount (freshId : Nat) (r : RegisterReq) : Account :=
  { id := freshId, email := r.email, name := r.name,
    password := some (bcryptHash r.password),
    phoneNumber := r.phoneNumber,
    authProvider := AuthProvider.email }

/-- `UserModel.create` in `register`: fails (duplicate-key) when the unique
index on `email` is violated, else appends the new document. -/
def createUser (s : Store) (freshId : Nat) (r : RegisterReq) : Option Store :=
  if (s.find? (matchesEmailQuery r.email)).isSome then none
  else some (s ++ [freshLocalAccount freshId r])

/-- Outcome of `POST /register`. -/
inductive RegisterResult where
  | conflict
  | created (code : String)
  | serverError
deriving DecidableEq, Repr

/-- HTTP status of a register outcome: 400 on the duplicate check, 201 on
success, 500 from the generic catch handler. -/
def RegisterResult.status : RegisterResult → Nat
  | .conflict => 400
  | .created _ => 201
  | .serverError => 500

/-- `newUser.emailVerificationToken = code; ...Expires = now + 10min; save()`. -/
def setVerificationCode (s : Store) (userId now code : Nat) : Store :=
  s.map (fun a =>
    if a.id = userId then
      { a with emailVerificationToken := some (toString code),
               emailVerificationTokenExpires := some (now + tenMinutesMs) }
    else a)

/-- The remainder of `register` after its `findOne({email})` returned
`sawExisting`: the duplicate check yields 400; a duplicate-key throw from
`create` is swallowed by the generic catch as a 500; otherwise the code is
stored and the verification mail dispatched. Returns (result, store, outbox). -/
def registerResume (sawExisting : Bool) (now code freshId : Nat) (s : Store)
    (r : RegisterReq) : RegisterResult × Store × List Email :=
  if sawExisting then (.conflict, s, [])
  else
    match createUser s freshId r with
    | none => (.serverError, s, [])
    | some s1 =>
        (.created (toString code), setVerificationCode s1 freshId now code,
         [verificationEmail r.email (toString code)])

/-- `register` of `authController.ts`, run without interference. -/
def register (now code freshId : Nat) (s : Store) (r : RegisterReq) :
    RegisterResult × Store × List Email :=
  registerResume ((s.find? (matchesEmailQuery r.email)).isSome) now code freshId s r

/-- Two concurrent `register` calls in the fully racing interleaving: both
duplicate checks read the initial store before either `create` runs; request 1
then completes, and request 2's `create` hits the unique index. -/
def registerRace (now code1 id1 code2 id2 : Nat) (s : Store)
    (r1 r2 : RegisterReq) :
    (RegisterResult × Store × List Email) × (RegisterResult × Store × List Email) :=
  let saw1 := (s.find? (matchesEmailQuery r1.email)).isSome
  let saw2 := (s.find? (matchesEmailQuery r2.email)).isSome
  let o1 := registerResume saw1 now code1 id1 s r1
  let o2 := registerResume saw2 now code2 id2 o1.2.1 r2
  (o1, o2)

/-- A spec-level 6-digit numeric code: the decimal rendering of some integer in
`crypto.randomInt(100000, 999999)`'s support range. -/
def IsSixDigitCode (code : String) : Prop :=
  ∃ n : Nat, 100000 ≤ n ∧ n < 1000000 ∧ code = toString n

/-- The identity assertion delivered by the Google strategy:
`profile.id`, `profile.displayName`, `profile.emails?.[0]?.value`,
`profile.photos?.[0]?.value`. -/
structure GoogleProfile where
  id : String
  displayName : String
  email : String
  photo : Option String
deriving DecidableEq, Repr

/-- The link branch of the Google verify callback: set `googleId`, overwrite
`photoURL`, force `isEmailVerified`; every other field is left as is. -/
def linkGoogle (a : Account) (p : GoogleProfile) : Account :=
  { a with googleId := some p.id, photoURL := p.photo, isEmailVerified := true }

/-- `UserModel.create` in the Google callback: new account with
`authProvider: "google"`, `isEmailVerified: true`; fails on either unique
index (email or googleId). -/
def createGoogleUser (s : Store) (freshId : Nat) (p : GoogleProfile) :
    Option (Account × Store) :=
  if (s.find? (matchesEmailQuery p.email)).isSome ||
     (s.find? (fun a => a.googleId == some p.id)).isSome then none
  else
    let u : Account := { id := freshId, email := p.email, name := p.displayName,
                         googleId := some p.id, photoURL := p.photo,
                         authProvider := AuthProvider.google,
                         isEmailVerified := true }
    some (u, s ++ [u])

/-- The Google strategy verify callback of `passport.ts`: lookup by
`googleId`, else lookup by `email` (link), else create; a store failure
surfaces as `none` (`done(error)`). Returns the authenticated account and the
resulting store. -/
def googleCallback (s : Store) (p : GoogleProfile) (freshId : Nat) :
    Option (Account × Store) :=
  match s.find? (fun a => a.googleId == some p.id) with
  | some u => some (u, s)
  | none =>
    match s.find? (matchesEmailQuery p.email) with
    | some u =>
        let u' := linkGoogle u p
        some (u', s.saveReplace u')
    | none => createGoogleUser s freshId p

/-- `getProfile` of `authController.ts`:
`{ id, name, email, photoURL }` of the authenticated account. -/
def getProfile (a : Account) : PublicUser := a.publicUser

/-- Number of stored accounts carrying a given email. -/
def countEmail (s : Store) (email : String) : Nat :=
  s.countP (matchesEmailQuery email)

/-- Pairwise-distinct emails: the unique index invariant on `email`. -/
def UniqueEmails (s : Store) : Prop :=
  s.Pairwise (fun a b => a.email ≠ b.email)

/-- Pairwise-distinct ids: the `_id` primary-key invariant. -/
def UniqueIds (s : Store) : Prop :=
  s.Pairwise (fun a b => a.id ≠ b.id)

/-! ### Sample data for witnesses and counterexamples -/

/-- A server-held signing secret. -/
def sampleSecret : String := "server-secret"

/-- A verified local account still carrying an unexpired verification code —
the state the Google link branch leaves behind (it never clears the code). -/
def acctVerifiedWithCode : Account :=
  { id := 1, email := "a@x.com", name := "Alice",
    password := some (bcryptHash "pw-alice"),
    authProvider := AuthProvider.email, isEmailVerified := true,
    emailVerificationToken := some "123456",
    emailVerificationTokenExpires := some 1000000 }

/-- A pending-verification local account with a known password hash. -/
def acctUnverified : Account :=
  { id := 2, email := "b@x.com", name := "Bob",
    password := some (bcryptHash "pw-bob"),
    authProvider := AuthProvider.email, isEmailVerified := false,
    emailVerificationToken := some "222222",
    emailVerificationTokenExpires := some 600000 }

/-- A Google identity assertion whose email matches `acctUnverified`. -/
def gProfileSample : GoogleProfile :=
  { id := "google-sub-1", displayName := "Bob G", email := "b@x.com",
    photo := some "http://img.example/p.png" }

/-! ### Helper lemmas -/

lemma matchesVerifyQuery_iff (now : Nat) (email otp : String) (a : Account) :
    matchesVerifyQuery now email otp a = true ↔
      a.email = email ∧ a.emailVerificationToken = some otp ∧
        ∃ e, a.emailVerificationTokenExpires = some e ∧ now < e := by
  cases hx : a.emailVerificationTokenExpires with
  | none => simp [matchesVerifyQuery, hx]
  | some e => simp [matchesVerifyQuery, hx, and_assoc]

lemma matchesLoginQuery_iff (email : String) (a : Account) :
    matchesLoginQuery email a = true ↔
      a.email = email ∧ a.authProvider = AuthProvider.email := by
  simp [matchesLoginQuery]

lemma matchesResendQuery_iff (email : String) (a : Account) :
    matchesResendQuery email a = true ↔
      a.email = email ∧ a.authProvider = AuthProvider.email ∧
        a.isEmailVerified = false := by
  simp [matchesResendQuery, and_assoc]

/-! ### Claim C1 -/

/-- Claim C1, counterexample: `verifyEmail` never consults `isEmailVerified`,
so an already-verified account still holding an unexpired code (the state the
Google link branch leaves behind) is re-verified successfully — the claim that
success requires the account to be unverified is false. -/
theorem verifyEmail_succeeds_on_verified_account :
    acctVerifiedWithCode.isEmailVerified = true ∧
    (verifyEmail sampleSecret 0 [acctVerifiedWithCode] "a@x.com" "123456").1.status = 200 := by
  decide

/-- Claim C1 (amended): a `verify` call succeeds iff an account with that email
exists whose stored code is exactly string-equal to the submitted code and
whose expiry is strictly in the future (a code at the exact expiry instant is
rejected) — the account's verification flag is not consulted; in every other
case it fails with the uniform `InvalidOrExpired` error and the store is
unchanged. -/
theorem verifyEmail_success_iff (secret : String) (now : Nat) (s : Store)
    (email otp : String) :
    ((verifyEmail secret now s email otp).1 ≠ VerifyResult.invalidOrExpired ↔
      ∃ a ∈ s, a.email = email ∧ a.emailVerificationToken = some otp ∧
        ∃ e, a.emailVerificationTokenExpires = some e ∧ now < e) ∧
    ((verifyEmail secret now s email otp).1 = VerifyResult.invalidOrExpired →
      (verifyEmail secret now s email otp).2 = s) := by
  cases hf : s.find? (matchesVerifyQuery now email otp) with
  | none =>
      refine ⟨⟨fun hne => ?_, fun hex => ?_⟩, fun _ => ?_⟩
      · exact absurd (by simp [verifyEmail, hf]) hne
      · obtain ⟨a, ha, hprops⟩ := hex
        have hq : matchesVerifyQuery now email otp a = true :=
          (matchesVerifyQuery_iff now email otp a).mpr hprops
        have hnone := List.find?_eq_none.mp hf a ha
        simp [hq] at hnone
      · simp [verifyEmail, hf]
  | some u =>
      refine ⟨⟨fun _ => ?_, fun _ => ?_⟩, fun hbad => ?_⟩
      · exact ⟨u, List.mem_of_find?_eq_some hf,
          (matchesVerifyQuery_iff now email otp u).mp (List.find?_some hf)⟩
      · simp [verifyEmail, hf]
      · simp [verifyEmail, hf] at hbad

/-- Witness for C1 (amended): on an empty store, verification fails and the
store is unchanged. -/
theorem verifyEmail_success_iff_witness :
    (verifyEmail sampleSecret 0 [] "a@x.com" "123456").2 = [] :=
  (verifyEmail_success_iff sampleSecret 0 [] "a@x.com" "123456").2 (by decide)

/-! ### Claim C2 -/

/-- Claim C2: for every store in which every local account with the given email
is unverified, `login` never issues a token (never sets the session cookie),
regardless of the password submitted. -/
theorem login_never_issues_token_unverified (secret : String) (now : Nat)
    (s : Store) (email pw : String)
    (h : ∀ a ∈ s, a.email = email → a.authProvider = AuthProvider.email →
      a.isEmailVerified = false) :
    (login secret now s email pw).issuesToken = false := by
  cases hf : s.find? (matchesLoginQuery email) with
  | none => simp [login, hf, LoginResult.issuesToken]
  | some u =>
      have hu : u ∈ s := List.mem_of_find?_eq_some hf
      have hq := (matchesLoginQuery_iff email u).mp (List.find?_some hf)
      have hver : u.isEmailVerified = false := h u hu hq.1 hq.2
      cases hp : u.password with
      | none => simp [login, hf, hp, LoginResult.issuesToken]
      | some hash => simp [login, hf, hp, hver, LoginResult.issuesToken]

/-- Witness for C2: the unverified account's correct password still does not
log in. -/
theorem login_never_issues_token_unverified_witness :
    (login sampleSecret 0 [acctUnverified] "b@x.com" "pw-bob").issuesToken = false :=
  login_never_issues_token_unverified sampleSecret 0 [acctUnverified] "b@x.com" "pw-bob"
    (by decide)

/-! ### Claim C3 -/

/-- Claim C3, counterexample: the source checks `isEmailVerified` before
`bcrypt.compare`, so an unverified account probed with a wrong password gets
`EmailNotVerified`, not `InvalidCredentials` — the claim that
`EmailNotVerified` is disclosed only after the password has matched is false. -/
theorem login_emailNotVerified_before_password_check :
    bcryptCompare "wrong-pw" (bcryptHash "pw-bob") = false ∧
    login sampleSecret 0 [acctUnverified] "b@x.com" "wrong-pw" =
      LoginResult.emailNotVerified := by
  decide

/-- Claim C3 (amended): `login` returns `EmailNotVerified` exactly when the
local account for that email exists, has a password hash, and is unverified —
regardless of whether the submitted password matches, because the verification
check precedes the password comparison. -/
theorem login_emailNotVerified_iff (secret : String) (now : Nat) (s : Store)
    (email pw : String) :
    login secret now s email pw = LoginResult.emailNotVerified ↔
      ∃ u, s.find? (matchesLoginQuery email) = some u ∧
        u.password.isSome = true ∧ u.isEmailVerified = false := by
  unfold login
  cases hf : s.find? (matchesLoginQuery email) with
  | none => simp
  | some u =>
      cases hp : u.password with
      | none => simp [hp]
      | some hash =>
          by_cases hv : u.isEmailVerified
          · cases hc : bcryptCompare pw hash <;> simp [hp, hv, hc]
          · simp [hp, hv]

/-- Witness for C3 (amended): the unverified account yields
`EmailNotVerified` on an arbitrary wrong password. -/
theorem login_emailNotVerified_iff_witness :
    login sampleSecret 0 [acctUnverified] "b@x.com" "another-wrong-pw" =
      LoginResult.emailNotVerified :=
  (login_emailNotVerified_iff sampleSecret 0 [acctUnverified] "b@x.com"
    "another-wrong-pw").mpr ⟨acctUnverified, by decide, by decide, by decide⟩

/-! ### Claim C8 -/

/-- Claim C8: verifying a freshly issued token with the same secret strictly
inside its 1-day validity window yields exactly the signed account id;
verification fails under a different secret and at-or-after expiry. -/
theorem jwt_roundtrip (userId : Nat) (secret secret2 : String) (issuedAt now : Nat) :
    (now < issuedAt + oneDayMs →
      jwtVerify (jwtSign userId secret issuedAt) secret now = some userId) ∧
    (secret2 ≠ secret →
      jwtVerify (jwtSign userId secret issuedAt) secret2 now = none) ∧
    (issuedAt + oneDayMs ≤ now →
      jwtVerify (jwtSign userId secret issuedAt) secret now = none) := by
  refine ⟨fun h => ?_, fun h => ?_, fun h => ?_⟩
  · simp [jwtSign, jwtVerify, h]
  · simp [jwtSign, jwtVerify, Ne.symm h]
  · simp [jwtSign, jwtVerify, Nat.not_lt.mpr h]

/-- Witness for C8 at concrete instants and secrets. -/
theorem jwt_roundtrip_witness :
    jwtVerify (jwtSign 7 "sec" 0) "sec" 1000 = some 7 ∧
    jwtVerify (jwtSign 7 "sec" 0) "other" 1000 = none ∧
    jwtVerify (jwtSign 7 "sec" 0) "sec" 86400000 = none :=
  ⟨(jwt_roundtrip 7 "sec" "other" 0 1000).1 (by decide),
   (jwt_roundtrip 7 "sec" "other" 0 1000).2.1 (by decide),
   (jwt_roundtrip 7 "sec" "other" 0 86400000).2.2 (by decide)⟩

/-! ### Claim C10 -/

/-- Claim C10: the Google link branch (`linkGoogle`, the update applied when an
existing account is found by email) mutates only `googleId`, `photoURL` and
`isEmailVerified`; every other field — in particular a pending verification
code and its expiry — is unchanged, so the concrete pending account ends up
simultaneously verified and holding its stored, unexpired code. -/
theorem linkGoogle_frame (a : Account) (p : GoogleProfile) :
    (linkGoogle a p).id = a.id ∧
    (linkGoogle a p).email = a.email ∧
    (linkGoogle a p).name = a.name ∧
    (linkGoogle a p).password = a.password ∧
    (linkGoogle a p).phoneNumber = a.phoneNumber ∧
    (linkGoogle a p).authProvider = a.authProvider ∧
    (linkGoogle a p).emailVerificationToken = a.emailVerificationToken ∧
    (linkGoogle a p).emailVerificationTokenExpires = a.emailVerificationTokenExpires ∧
    (linkGoogle a p).googleId = some p.id ∧
    (linkGoogle a p).photoURL = p.photo ∧
    (linkGoogle a p).isEmailVerified = true ∧
    ((linkGoogle acctUnverified gProfileSample).isEmailVerified = true ∧
     (linkGoogle acctUnverified gProfileSample).emailVerificationToken = some "222222" ∧
     (linkGoogle acctUnverified gProfileSample).emailVerificationTokenExpires = some 600000) :=
  ⟨rfl, rfl, rfl, rfl, rfl, rfl, rfl, rfl, rfl, rfl, rfl, rfl, rfl, rfl⟩

/-! ### Claim C9 -/

/-- Same pending account as `acctUnverified` but with a different stored
verification code; all public fields and the password agree. -/
def acctOtpVariant : Account :=
  { acctUnverified with emailVerificationToken := some "999999" }

/-- Claim C9, counterexample: two account states that agree on every field
except the stored verification code produce different `verify-email`
responses (one succeeds with 200, the other fails with 400), so the response
is not a function of `{id, name, email, photoURL}` alone — the outcome of
verification depends on the secret field even though no body exposes it. -/
theorem responses_differ_on_secret_fields :
    acctUnverified.publicUser = acctOtpVariant.publicUser ∧
    acctUnverified.password = acctOtpVariant.password ∧
    acctUnverified.isEmailVerified = acctOtpVariant.isEmailVerified ∧
    acctUnverified.emailVerificationTokenExpires =
      acctOtpVariant.emailVerificationTokenExpires ∧
    (verifyEmail sampleSecret 0 [acctUnverified] "b@x.com" "222222").1 ≠
      (verifyEmail sampleSecret 0 [acctOtpVariant] "b@x.com" "222222").1 := by
  decide

/-- Claim C9 (amended): no response body ever carries the password hash or the
verification code — every successful verify/login body is exactly the public
projection `{id, name, email, photoURL}` of a stored account, and the profile
response is a function of those four fields only; what does depend on the
secret fields is merely whether login/verify succeed at all. -/
theorem responses_expose_only_public_fields (secret : String) (now : Nat)
    (s : Store) (email otp pw : String) (a b : Account)
    (hpub : a.publicUser = b.publicUser) :
    getProfile a = getProfile b ∧
    (∀ u t s2, verifyEmail secret now s email otp = (VerifyResult.ok u t, s2) →
      ∃ c ∈ s, u = c.publicUser) ∧
    (∀ u t, login secret now s email pw = LoginResult.ok u t →
      ∃ c ∈ s, u = c.publicUser) := by
  refine ⟨hpub, fun u t s2 hok => ?_, fun u t hok => ?_⟩
  · cases hf : s.find? (matchesVerifyQuery now email otp) with
    | none => simp [verifyEmail, hf] at hok
    | some c =>
        refine ⟨c, List.mem_of_find?_eq_some hf, ?_⟩
        simp [verifyEmail, hf] at hok
        exact hok.1.1.symm
  · cases hf : s.find? (matchesLoginQuery email) with
    | none => simp [login, hf] at hok
    | some c =>
        refine ⟨c, List.mem_of_find?_eq_some hf, ?_⟩
        cases hp : c.password with
        | none => simp [login, hf, hp] at hok
        | some hash =>
            by_cases hv : c.isEmailVerified
            · cases hc : bcryptCompare pw hash with
              | false => simp [login, hf, hp, hv, hc] at hok
              | true =>
                  simp [login, hf, hp, hv, hc] at hok
                  exact hok.1.symm
            · simp [login, hf, hp, hv] at hok

/-- Witness for C9 (amended): profile responses agree across the two states
that differ only in the stored code. -/
theorem responses_expose_only_public_fields_witness :
    getProfile acctUnverified = getProfile acctOtpVariant :=
  (responses_expose_only_public_fields sampleSecret 0 [] "b@x.com" "222222"
    "pw-bob" acctUnverified acctOtpVariant (by decide)).1

/-! ### Claim C7 -/

lemma setVerificationCode_map_id (uid now code : Nat) :
    ∀ s : Store, (∀ a ∈ s, a.id ≠ uid) → setVerificationCode s uid now code = s := by
  intro s
  induction s with
  | nil => intro _; rfl
  | cons b t ih =>
      intro h
      have hb : b.id ≠ uid := h b (List.mem_cons_self b t)
      have ht : ∀ a ∈ t, a.id ≠ uid := fun a ha => h a (List.mem_cons_of_mem b ha)
      simp only [setVerificationCode, List.map_cons, if_neg hb]
      have := ih ht
      simp only [setVerificationCode] at this
      rw [this]

lemma setVerificationCode_append (s : Store) (b : Account) (uid now code : Nat)
    (hs : ∀ a ∈ s, a.id ≠ uid) (hb : b.id = uid) :
    setVerificationCode (s ++ [b]) uid now code =
      s ++ [{ b with emailVerificationToken := some (toString code),
                     emailVerificationTokenExpires := some (now + tenMinutesMs) }] := by
  unfold setVerificationCode
  rw [List.map_append]
  have h1 : s.map (fun a =>
      if a.id = uid then
        { a with emailVerificationToken := some (toString code),
                 emailVerificationTokenExpires := some (now + tenMinutesMs) }
      else a) = s := setVerificationCode_map_id uid now code s hs
  rw [h1]
  simp [hb]

/-- Claim C7: for a fresh email, `register` creates exactly one account with
`authProvider = local`, `isEmailVerified = false`, a stored 6-digit numeric
code expiring exactly 10 minutes from issuance, and then dispatches a
verification email containing that code; for a taken email it fails with
`Conflict` and creates nothing and sends nothing. -/
theorem register_fresh_creates_pending (now code freshId : Nat) (s : Store)
    (r : RegisterReq) (hfresh : ∀ a ∈ s, a.id ≠ freshId)
    (h6a : 100000 ≤ code) (h6b : code < 1000000) :
    (s.find? (matchesEmailQuery r.email) = none →
      register now code freshId s r =
        (RegisterResult.created (toString code),
         s ++ [{ freshLocalAccount freshId r with
                 emailVerificationToken := some (toString code),
                 emailVerificationTokenExpires := some (now + tenMinutesMs) }],
         [verificationEmail r.email (toString code)]) ∧
      IsSixDigitCode (toString code)) ∧
    ((s.find? (matchesEmailQuery r.email)).isSome = true →
      register now code freshId s r = (RegisterResult.conflict, s, [])) := by
  constructor
  · intro hn
    refine ⟨?_, ⟨code, h6a, h6b, rfl⟩⟩
    have hcu : createUser s freshId r = some (s ++ [freshLocalAccount freshId r]) := by
      simp [createUser, hn]
    have hset := setVerificationCode_append s (freshLocalAccount freshId r)
      freshId now code hfresh rfl
    simp [register, registerResume, hn, hcu, hset]
  · intro hs
    simp [register, registerResume, hs]

/-- A registration request for the witness. -/
def regReqSample : RegisterReq :=
  { name := "Carol", email := "c@x.com", password := "pw-carol" }

/-- Witness for C7: a concrete registration on the empty store yields 201 and
a 6-digit code. -/
theorem register_fresh_creates_pending_witness :
    (register 0 123456 5 [] regReqSample).1.status = 201 ∧
    IsSixDigitCode (toString 123456) := by
  have h := (register_fresh_creates_pending 0 123456 5 [] regReqSample
    (by simp) (by decide) (by decide)).1 (by decide)
  exact ⟨by rw [h.1]; rfl, h.2⟩

/-! ### Claim C4 -/

lemma eq_of_mem_unique_emails {s : Store} (huniq : UniqueEmails s) {a b : Account}
    (ha : a ∈ s) (hb : b ∈ s) (he : a.email = b.email) : a = b := by
  by_contra hne
  have hsym : Symmetric (fun x y : Account => x.email ≠ y.email) :=
    fun x y hxy h => hxy h.symm
  exact (List.Pairwise.forall hsym huniq ha hb hne) he

/-- Claim C4 (amended): a successful `resend` overwrites the stored code with
the freshly drawn code and a fresh 10-minute expiry, so at most one code is
live per account; the previously stored code then no longer satisfies
`verify` — provided the freshly drawn random code differs from it (when the
draw happens to repeat the old code, that code remains valid). `resend` fails
with the uniform `NotFound` exactly when no local-provider unverified account
carries the email. -/
theorem resend_overwrites_single_live_code (secret : String) (now now2 fresh : Nat)
    (s : Store) (email old : String) (huniq : UniqueEmails s) :
    ((resendVerification now fresh s email).1 = ResendResult.notFound ↔
      ∀ a ∈ s, ¬(a.email = email ∧ a.authProvider = AuthProvider.email ∧
        a.isEmailVerified = false)) ∧
    ((resendVerification now fresh s email).1 ≠ ResendResult.notFound →
      toString fresh ≠ old →
      (verifyEmail secret now2 (resendVerification now fresh s email).2 email old).1 =
        VerifyResult.invalidOrExpired ∧
      ∃ a ∈ (resendVerification now fresh s email).2,
        a.email = email ∧ a.emailVerificationToken = some (toString fresh) ∧
        a.emailVerificationTokenExpires = some (now + tenMinutesMs)) := by
  cases hf : s.find? (matchesResendQuery email) with
  | none =>
      refine ⟨⟨fun _ a ha hc => ?_, fun _ => by simp [resendVerification, hf]⟩,
        fun hr => absurd (by simp [resendVerification, hf]) hr⟩
      have hq : matchesResendQuery email a = true :=
        (matchesResendQuery_iff email a).mpr hc
      have := List.find?_eq_none.mp hf a ha
      simp [hq] at this
  | some u =>
      have hu : u ∈ s := List.mem_of_find?_eq_some hf
      have hq := (matchesResendQuery_iff email u).mp (List.find?_some hf)
      refine ⟨⟨fun hbad => ?_, fun hall => absurd hq (hall u hu)⟩,
        fun _ hne => ?_⟩
      · simp [resendVerification, hf] at hbad
      · have hstore : (resendVerification now fresh s email).2 =
            s.saveReplace { u with
              emailVerificationToken := some (toString fresh),
              emailVerificationTokenExpires := some (now + tenMinutesMs) } := by
          simp [resendVerification, hf]
        constructor
        · have hnone : ((resendVerification now fresh s email).2).find?
              (matchesVerifyQuery now2 email old) = none := by
            rw [hstore]
            rw [List.find?_eq_none]
            intro b hb
            obtain ⟨c, hc, hcb⟩ := List.mem_map.mp hb
            by_cases hcid : c.id = u.id
            · have hbu : b = { u with
                  emailVerificationToken := some (toString fresh),
                  emailVerificationTokenExpires := some (now + tenMinutesMs) } := by
                rw [← hcb]; simp [hcid]
              subst hbu
              simp [matchesVerifyQuery, hne]
            · have hbc : b = c := by rw [← hcb]; simp [hcid]
              subst hbc
              intro hmq
              have hbe : b.email = email :=
                ((matchesVerifyQuery_iff now2 email old b).mp hmq).1
              have hbu : b = u :=
                eq_of_mem_unique_emails huniq hc hu (hbe.trans hq.1.symm)
              exact hcid (congrArg Account.id hbu)
          simp [verifyEmail, hnone]
        · refine ⟨{ u with
              emailVerificationToken := some (toString fresh),
              emailVerificationTokenExpires := some (now + tenMinutesMs) },
            ?_, hq.1, rfl, rfl⟩
          rw [hstore]
          exact List.mem_map.mpr ⟨u, hu, by simp⟩

/-- Witness for C4 (amended): after a concrete resend drawing 333333, the old
code 222222 no longer verifies. -/
theorem resend_overwrites_single_live_code_witness :
    (verifyEmail sampleSecret 0
      (resendVerification 0 333333 [acctUnverified] "b@x.com").2
      "b@x.com" "222222").1 = VerifyResult.invalidOrExpired :=
  ((resend_overwrites_single_live_code sampleSecret 0 0 333333 [acctUnverified]
      "b@x.com" "222222" (by simp [UniqueEmails])).2 (by decide) (by decide)).1

/-- Claim C4, counterexample: the fresh code is drawn by
`crypto.randomInt(100000, 999999)` and can coincide with the previously stored
code; in that case the resend succeeds yet the previously stored code still
satisfies `verify`, so "the previously stored code no longer satisfies verify"
does not hold for every draw. -/
theorem resend_repeat_draw_keeps_old_code_alive :
    acctUnverified.emailVerificationToken = some "222222" ∧
    (resendVerification 0 222222 [acctUnverified] "b@x.com").1 ≠
      ResendResult.notFound ∧
    (verifyEmail sampleSecret 0
      (resendVerification 0 222222 [acctUnverified] "b@x.com").2
      "b@x.com" "222222").1.status = 200 := by
  decide

/-! ### Claim C5 -/

lemma saveReplace_map_id (a' : Account) :
    ∀ s : Store, (∀ c ∈ s, c.id ≠ a'.id) → Store.saveReplace s a' = s := by
  intro s
  induction s with
  | nil => intro _; rfl
  | cons b t ih =>
      intro h
      have hb : b.id ≠ a'.id := h b (List.mem_cons_self b t)
      have ht : ∀ c ∈ t, c.id ≠ a'.id := fun c hc => h c (List.mem_cons_of_mem b hc)
      simp only [Store.saveReplace, List.map_cons, if_neg hb]
      have := ih ht
      simp only [Store.saveReplace] at this
      rw [this]

lemma countP_saveReplace (p : Account → Bool) (a' : Account) :
    ∀ (s : Store) (a : Account), UniqueIds s → a ∈ s → a'.id = a.id →
      p a' = p a → (Store.saveReplace s a').countP p = s.countP p := by
  intro s
  induction s with
  | nil => intro a _ ha _ _; exact absurd ha (List.not_mem_nil a)
  | cons b t ih =>
      intro a hu ha hid hp
      have hcons := List.pairwise_cons.mp hu
      rcases List.mem_cons.mp ha with hab | hat
      · subst hab
        have hba : a.id = a'.id := hid.symm
        have ht : ∀ c ∈ t, c.id ≠ a'.id := fun c hc hcontra => by
          exact (hcons.1 c hc) (hba.trans hcontra.symm)
        simp only [Store.saveReplace, List.map_cons, if_pos hba]
        have htid := saveReplace_map_id a' t ht
        simp only [Store.saveReplace] at htid
        rw [htid, List.countP_cons, List.countP_cons, hp]
      · have hbne : b.id ≠ a'.id := fun hcontra => by
          exact (hcons.1 a hat) (hcontra.trans hid)
        simp only [Store.saveReplace, List.map_cons, if_neg hbne]
        have := ih a hcons.2 hat hid hp
        simp only [Store.saveReplace] at this
        rw [List.countP_cons, List.countP_cons, this]

lemma countEmail_eq_one_of_mem (e : String) :
    ∀ (s : Store) (a : Account), UniqueEmails s → a ∈ s → a.email = e →
      countEmail s e = 1 := by
  intro s
  induction s with
  | nil => intro a _ ha _; exact absurd ha (List.not_mem_nil a)
  | cons b t ih =>
      intro a hu ha hae
      have hcons := List.pairwise_cons.mp hu
      rcases List.mem_cons.mp ha with hab | hat
      · subst hab
        have ht0 : countEmail t e = 0 := by
          unfold countEmail
          rw [List.countP_eq_zero]
          intro c hc hqc
          have hce : c.email = e := by simpa [matchesEmailQuery] using hqc
          exact (hcons.1 c hc) (hae.trans hce.symm)
        unfold countEmail at ht0 ⊢
        rw [List.countP_cons, ht0]
        simp [matchesEmailQuery, hae]
      · have hqb : matchesEmailQuery e b = false := by
          simp only [matchesEmailQuery, beq_eq_false_iff_ne, ne_eq]
          intro hbe
          exact (hcons.1 a hat) (hbe.trans hae.symm)
        have := ih a hcons.2 hat hae
        unfold countEmail at this ⊢
        rw [List.countP_cons, this, hqb]
        simp

/-- Claim C5: the federated callback short-circuits on a `providerId` match;
when no account carries the asserted provider id but one carries the asserted
email, the callback links that same account — it ends up with `providerId`
set, `photoURL` overwritten, `isEmailVerified` forced true — and exactly one
account with that email exists afterwards (no duplicate is created). -/
theorem googleCallback_links_existing_email (s : Store) (p : GoogleProfile)
    (freshId : Nat) (a : Account)
    (hg : s.find? (fun b => b.googleId == some p.id) = none)
    (he : s.find? (matchesEmailQuery p.email) = some a)
    (huniq : UniqueEmails s) (hids : UniqueIds s) :
    googleCallback s p freshId =
      some (linkGoogle a p, s.saveReplace (linkGoogle a p)) ∧
    (linkGoogle a p).id = a.id ∧
    (linkGoogle a p).googleId = some p.id ∧
    (linkGoogle a p).photoURL = p.photo ∧
    (linkGoogle a p).isEmailVerified = true ∧
    countEmail (s.saveReplace (linkGoogle a p)) p.email = 1 := by
  have ha : a ∈ s := List.mem_of_find?_eq_some he
  have hae : a.email = p.email := by
    have := List.find?_some he
    simpa [matchesEmailQuery] using this
  refine ⟨by simp [googleCallback, hg, he], rfl, rfl, rfl, rfl, ?_⟩
  have h1 : countEmail (s.saveReplace (linkGoogle a p)) p.email =
      countEmail s p.email :=
    countP_saveReplace (matchesEmailQuery p.email) (linkGoogle a p) s a
      hids ha rfl rfl
  rw [h1]
  exact countEmail_eq_one_of_mem p.email s a huniq ha hae

/-- Witness for C5: linking `gProfileSample` onto the store holding only the
matching local account leaves exactly one account with that email. -/
theorem googleCallback_links_existing_email_witness :
    countEmail (Store.saveReplace [acctUnverified]
      (linkGoogle acctUnverified gProfileSample)) "b@x.com" = 1 :=
  (googleCallback_links_existing_email [acctUnverified] gProfileSample 9
    acctUnverified (by decide) (by decide) (by simp [UniqueEmails])
    (by simp [UniqueIds])).2.2.2.2.2

/-! ### Claim C6 -/

lemma countEmail_eq_zero_of_find?_eq_none (s : Store) (e : String)
    (h : s.find? (matchesEmailQuery e) = none) : countEmail s e = 0 := by
  unfold countEmail
  rw [List.countP_eq_zero]
  exact List.find?_eq_none.mp h

/-- The winner's stored document after the racing registration completes:
the fresh local account with its verification code and expiry set. -/
def racedAccount (now code1 id1 : Nat) (r1 : RegisterReq) : Account :=
  { freshLocalAccount id1 r1 with
    emailVerificationToken := some (toString code1),
    emailVerificationTokenExpires := some (now + tenMinutesMs) }

/-- First racing registration request. -/
def regReqA : RegisterReq := { name := "A", email := "dup@x.com", password := "pwA" }

/-- Second racing registration request, same email. -/
def regReqB : RegisterReq := { name := "B", email := "dup@x.com", password := "pwB" }

/-- Claim C6, counterexample: in the fully racing interleaving (both duplicate
checks read the store before either insert) the loser's duplicate-key
exception is swallowed by `register`'s generic catch handler, which answers
500 "Server error during registration", not the claimed 400 Conflict. -/
theorem register_race_loser_gets_500 :
    (registerRace 0 111111 1 222222 2 [] regReqA regReqB).1.1 =
      RegisterResult.created "111111" ∧
    (registerRace 0 111111 1 222222 2 [] regReqA regReqB).2.1 =
      RegisterResult.serverError ∧
    (registerRace 0 111111 1 222222 2 [] regReqA regReqB).2.1.status = 500 ∧
    ¬((registerRace 0 111111 1 222222 2 [] regReqA regReqB).2.1.status = 400) := by
  decide

/-- Claim C6 (amended): when two registrations with the same fresh email race
(both duplicate checks before either insert), exactly one succeeds with 201
and exactly one account with that email is stored; the other fails — but with
the 500 server error produced by the catch-all around the duplicate-key
insert, not with the 400 Conflict of the sequential duplicate check (which a
serialized second registration would receive). -/
theorem register_race_exactly_one_created (now code1 id1 code2 id2 : Nat)
    (s : Store) (r1 r2 : RegisterReq) (heq : r1.email = r2.email)
    (hn : s.find? (matchesEmailQuery r1.email) = none)
    (hfresh : ∀ a ∈ s, a.id ≠ id1) :
    (registerRace now code1 id1 code2 id2 s r1 r2).1.1 =
      RegisterResult.created (toString code1) ∧
    (registerRace now code1 id1 code2 id2 s r1 r2).2.1 =
      RegisterResult.serverError ∧
    (registerRace now code1 id1 code2 id2 s r1 r2).2.1.status = 500 ∧
    countEmail (registerRace now code1 id1 code2 id2 s r1 r2).2.2.1 r1.email = 1 ∧
    (register now code2 id2 (registerRace now code1 id1 code2 id2 s r1 r2).1.2.1 r2).1 =
      RegisterResult.conflict := by
  have hsome1 : (s.find? (matchesEmailQuery r1.email)).isSome = false := by
    rw [hn]; rfl
  have hn2 : s.find? (matchesEmailQuery r2.email) = none := by rw [← heq]; exact hn
  have hsome2 : (s.find? (matchesEmailQuery r2.email)).isSome = false := by
    rw [hn2]; rfl
  have hcu1 : createUser s id1 r1 = some (s ++ [freshLocalAccount id1 r1]) := by
    simp [createUser, hsome1]
  have hstore1 : setVerificationCode (s ++ [freshLocalAccount id1 r1]) id1 now code1 =
      s ++ [racedAccount now code1 id1 r1] :=
    setVerificationCode_append s (freshLocalAccount id1 r1) id1 now code1 hfresh rfl
  have hq1 : matchesEmailQuery r2.email (racedAccount now code1 id1 r1) = true := by
    simp [matchesEmailQuery, racedAccount, freshLocalAccount, heq]
  have hmem : racedAccount now code1 id1 r1 ∈ s ++ [racedAccount now code1 id1 r1] :=
    List.mem_append_right _ (List.mem_singleton.mpr rfl)
  have hfindr : ((s ++ [racedAccount now code1 id1 r1]).find?
      (matchesEmailQuery r2.email)).isSome = true :=
    List.find?_isSome.mpr ⟨_, hmem, hq1⟩
  have hcu2 : createUser (s ++ [racedAccount now code1 id1 r1]) id2 r2 = none := by
    unfold createUser
    rw [hfindr]
    rfl
  have hrace : registerRace now code1 id1 code2 id2 s r1 r2 =
      ((RegisterResult.created (toString code1),
        s ++ [racedAccount now code1 id1 r1],
        [verificationEmail r1.email (toString code1)]),
       (RegisterResult.serverError, s ++ [racedAccount now code1 id1 r1], [])) := by
    simp [registerRace, registerResume, hsome1, hsome2, hcu1, hcu2, hstore1]
  rw [hrace]
  refine ⟨rfl, rfl, rfl, ?_, ?_⟩
  · show countEmail (s ++ [racedAccount now code1 id1 r1]) r1.email = 1
    unfold countEmail
    rw [List.countP_append]
    have h0 := countEmail_eq_zero_of_find?_eq_none s r1.email hn
    unfold countEmail at h0
    rw [h0]
    simp [matchesEmailQuery, racedAccount, freshLocalAccount]
  · show (register now code2 id2 (s ++ [racedAccount now code1 id1 r1]) r2).1 =
      RegisterResult.conflict
    have hreg : register now code2 id2 (s ++ [racedAccount now code1 id1 r1]) r2 =
        (RegisterResult.conflict, s ++ [racedAccount now code1 id1 r1], []) := by
      unfold register
      rw [hfindr]
      rfl
    rw [hreg]

/-- Witness for C6 (amended): the concrete race on the empty store leaves
exactly one account with the contested email. -/
theorem register_race_exactly_one_created_witness :
    countEmail (registerRace 0 111111 1 222222 2 [] regReqA regReqB).2.2.1
      "dup@x.com" = 1 :=
  (register_race_exactly_one_created 0 111111 1 222222 2 [] regReqA regReqB
    rfl (by decide) (by simp)).2.2.2.1

end Finwise
